import Mathlib

/-!
Verification of the uhyve hypervisor core (hypercall subsystem, boot
pagetables, guest-to-host path map) against its natural-language
specification.  All definitions below are shallow embeddings of the Rust
source under `src/`; machine integers are modelled as `Nat`/`Int`, host
syscalls as explicit oracle functions, fallible accessors as `Except`,
and panics (`unwrap`/`expect`/`assert`) as an explicit `panics` outcome.
-/

namespace Uhyve

/-! ## Constants from `src/consts.rs` and the fixed low-memory layout -/

/-- Offset of the boot GDT from the guest base (`BOOT_GDT` in `src/consts.rs`). -/
def GDT_OFFSET : Nat := 0x1000

/-- Offset of the boot PML4 table (`BOOT_PML4` in `src/consts.rs`). -/
def PML4_OFFSET : Nat := 0x10000

/-- Offset of the boot PDPTE table (`BOOT_PDPTE` in `src/consts.rs`). -/
def PDPTE_OFFSET : Nat := 0x11000

/-- Offset of the boot PDE table (`BOOT_PDE` in `src/consts.rs`). -/
def PDE_OFFSET : Nat := 0x12000

/-- Absolute guest-physical address of the boot PML4 (`BOOT_PML4` constant,
used by the read/write hypercall handlers as the page-walk root). -/
def BOOT_PML4 : Nat := 0x10000

/-- GDT slot indices from `src/consts.rs`. -/
def BOOT_GDT_NULL : Nat := 0

/-- GDT code-segment slot index from `src/consts.rs`. -/
def BOOT_GDT_CODE : Nat := 1

/-- GDT data-segment slot index from `src/consts.rs`. -/
def BOOT_GDT_DATA : Nat := 2

/-- Size of a 2 MiB guest page (`GUEST_PAGE_SIZE` in `src/consts.rs`,
`Page::<Size2MiB>::SIZE` in `src/paging.rs`). -/
def GUEST_PAGE_SIZE : Nat := 0x200000

/-- Open-flag constant `O_RDONLY` from `src/consts.rs`. -/
def O_RDONLY : Nat := 0o0000

/-- Open-flag constant `O_WRONLY` from `src/consts.rs`. -/
def O_WRONLY : Nat := 0o0001

/-- Open-flag constant `O_RDWR` from `src/consts.rs`. -/
def O_RDWR : Nat := 0o0002

/-- Open-flag constant `O_CREAT` from `src/consts.rs`. -/
def O_CREAT : Nat := 0o0100

/-- Open-flag constant `O_EXCL` from `src/consts.rs`. -/
def O_EXCL : Nat := 0o0200

/-- Open-flag constant `O_TRUNC` from `src/consts.rs`. -/
def O_TRUNC : Nat := 0o1000

/-- Open-flag constant `O_APPEND` from `src/consts.rs`. -/
def O_APPEND : Nat := 0o2000

/-- Open-flag constant `O_DIRECT` from `src/consts.rs`. -/
def O_DIRECT : Nat := 0o40000

/-- Open-flag constant `O_DIRECTORY` from `src/consts.rs`. -/
def O_DIRECTORY : Nat := 0o200000

/-- `ALLOWED_OPEN_FLAGS` from `src/consts.rs` (lines 43-44): the union of
the nine permitted open flags.  Note: this constant is defined in the
source but is not referenced anywhere else in the source tree. -/
def ALLOWED_OPEN_FLAGS : Nat :=
  O_RDONLY ||| O_WRONLY ||| O_RDWR ||| O_CREAT ||| O_EXCL ||| O_TRUNC |||
  O_APPEND ||| O_DIRECT ||| O_DIRECTORY

/-- Page-table flag PRESENT (bit 0), `x86_64::PageTableFlags::PRESENT`. -/
def FLAG_PRESENT : Nat := 1

/-- Page-table flag WRITABLE (bit 1), `x86_64::PageTableFlags::WRITABLE`. -/
def FLAG_WRITABLE : Nat := 2

/-- Page-table flag HUGE_PAGE (bit 7), `x86_64::PageTableFlags::HUGE_PAGE`. -/
def FLAG_HUGE_PAGE : Nat := 0x80

/-! ## GDT construction (`create_gdt_entry` in `src/paging.rs` and
`src/arch/x86_64/paging/mod.rs`) -/

/-- Embedding of `create_gdt_entry(flags, base, limit)`:
`((base & 0xff000000) << (56-24)) | ((flags & 0xf0ff) << 40)
 | ((limit & 0xf0000) << (48-16)) | ((base & 0xffffff) << 16)
 | (limit & 0xffff)`.
Every masked-and-shifted term is below `2^64`, so the `Nat` value agrees
with the source's `u64` arithmetic for all inputs. -/
def create_gdt_entry (flags base limit : Nat) : Nat :=
  ((base &&& 0xff000000) <<< (56 - 24)) |||
  ((flags &&& 0x0000f0ff) <<< 40) |||
  ((limit &&& 0x000f0000) <<< (48 - 16)) |||
  ((base &&& 0x00ffffff) <<< 16) |||
  (limit &&& 0x0000ffff)

/-- The GDT-entry encoding exactly as the specification words it:
`((base & 0xff000000) << 32) | ((flags & 0xf0ff) << 40)
 | ((limit & 0xf0000) << 32) | ((base & 0xffffff) << 16) | (limit & 0xffff)`.
Stated separately from `create_gdt_entry` so the code encoding can be
compared against the spec's encoding. -/
def spec_gdt_encode (flags base limit : Nat) : Nat :=
  ((base &&& 0xff000000) <<< 32) |||
  ((flags &&& 0xf0ff) <<< 40) |||
  ((limit &&& 0xf0000) <<< 32) |||
  ((base &&& 0xffffff) <<< 16) |||
  (limit &&& 0xffff)

/-- The three 8-byte GDT entries written at `GDT_OFFSET` by
`initialize_pagetables` (both in `src/paging.rs` lines 96-99 and
`src/arch/x86_64/paging/mod.rs` lines 98-101):
`gdt_entry[BOOT_GDT_NULL] = 0`,
`gdt_entry[BOOT_GDT_CODE] = create_gdt_entry(0xA09B, 0, 0xFFFFF)`,
`gdt_entry[BOOT_GDT_DATA] = create_gdt_entry(0xC093, 0, 0xFFFFF)`. -/
def gdt_after_init : Fin 3 → Nat :=
  Function.update
    (Function.update
      (Function.update (fun _ => 0) (0 : Fin 3) 0)
      (1 : Fin 3) (create_gdt_entry 0xA09B 0 0xFFFFF))
    (2 : Fin 3) (create_gdt_entry 0xC093 0 0xFFFFF)

/-! ## Boot pagetables (`UhyvePageTable::initialize_pagetables` in
`src/paging.rs`, lines 56-121) -/

/-- The three boot page tables, each with 512 8-byte entries. -/
structure PageTables where
  pml4 : Fin 512 → Nat
  pdpte : Fin 512 → Nat
  pde : Fin 512 → Nat

/-- Value written by `x86_64::PageTableEntry::set_addr(addr, flags)`:
the (4 KiB-aligned) address OR-ed with the flag bits. -/
def set_addr (addr flags : Nat) : Nat := addr ||| flags

/-- Embedding of `UhyvePageTable::initialize_pagetables` (pagetable part)
on a zeroed region, for a guest base address `g` (= `RAM_START`):
`pml4[0].set_addr(g + PDPTE_OFFSET, PRESENT | WRITABLE)`,
`pml4[511].set_addr(g + PML4_OFFSET, PRESENT | WRITABLE)`,
`pdpte[0].set_addr(g + PDE_OFFSET, PRESENT | WRITABLE)`, and
`pde[i].set_addr(i * 2MiB, PRESENT | WRITABLE | HUGE_PAGE)` for
`i in 0..512`. -/
def initialize_pagetables (g : Nat) : PageTables :=
  let zero : Fin 512 → Nat := fun _ => 0
  let pml4 := Function.update zero (0 : Fin 512)
    (set_addr (g + PDPTE_OFFSET) (FLAG_PRESENT ||| FLAG_WRITABLE))
  let pml4 := Function.update pml4 (511 : Fin 512)
    (set_addr (g + PML4_OFFSET) (FLAG_PRESENT ||| FLAG_WRITABLE))
  let pdpte := Function.update zero (0 : Fin 512)
    (set_addr (g + PDE_OFFSET) (FLAG_PRESENT ||| FLAG_WRITABLE))
  let pde := (List.finRange 512).foldl
    (fun t i => Function.update t i
      (set_addr (i.val * GUEST_PAGE_SIZE)
        (FLAG_PRESENT ||| FLAG_WRITABLE ||| FLAG_HUGE_PAGE)))
    zero
  ⟨pml4, pdpte, pde⟩

/-- Folding index-wise writes over a duplicate-free traversal: each index
receives the value assigned to it (the written value does not depend on
the accumulator, so the last write wins trivially). -/
theorem foldl_update_apply (v : Fin 512 → Nat) :
    ∀ (l : List (Fin 512)) (t : Fin 512 → Nat) (j : Fin 512),
      (l.foldl (fun t i => Function.update t i (v i)) t) j
        = if j ∈ l then v j else t j := by
  intro l
  induction l with
  | nil => intro t j; simp
  | cons i l ih =>
    intro t j
    simp only [List.foldl_cons, ih, List.mem_cons]
    by_cases hjl : j ∈ l
    · simp [hjl]
    · by_cases hji : j = i
      · subst hji; simp [hjl, Function.update_apply]
      · simp [hjl, hji, Function.update_apply]

/-! ## Guest memory region (`MmapMemory`)

The struct `MmapMemory` itself is not under `src/` (only its callers are),
so its accessors are modelled from the spec (§3 and §4.1). -/

/-- Modelled from the spec: the guest memory region `MmapMemory`.
`ramStart` is `RAM_START`, `size` is `memory_size`, and `content gpa` is
the little-endian `u64` whose first byte lives at guest-physical address
`gpa` (reduced mod `2^64` on read). -/
structure Mem where
  ramStart : Nat
  size : Nat
  content : Nat → Nat

/-- Modelled from the spec: the error type of the memory accessors
(`MemoryError` with variants `BoundsViolation` and `WrongMemoryError`). -/
inductive MemoryError where
  | BoundsViolation : MemoryError
  | WrongMemoryError : MemoryError
deriving DecidableEq

/-- Modelled from the spec: `MmapMemory::host_address(gpa)`, which returns
the host offset of `gpa` iff `RAM_START ≤ gpa < RAM_START + size` and
`BoundsViolation` otherwise. -/
def host_address (m : Mem) (gpa : Nat) : Except MemoryError Nat :=
  if m.ramStart ≤ gpa ∧ gpa < m.ramStart + m.size then
    .ok (gpa - m.ramStart)
  else
    .error .BoundsViolation

/-- Modelled from the spec: the bounds check of the typed accessor
`MmapMemory::get_ref_mut::<T>(gpa)`: a `T` of `size` bytes may be borrowed
at `gpa` iff `RAM_START ≤ gpa` and `gpa + size ≤ RAM_START + size`. -/
def get_ref_mut_ok (m : Mem) (gpa sizeOfT : Nat) : Bool :=
  decide (m.ramStart ≤ gpa ∧ gpa + sizeOfT ≤ m.ramStart + m.size)

/-- Modelled from the spec: the typed 8-byte read used by the page-table
walk; in bounds it yields the `u64` at `gpa`, out of bounds it fails. -/
def readU64 (m : Mem) (gpa : Nat) : Except MemoryError Nat :=
  if m.ramStart ≤ gpa ∧ gpa + 8 ≤ m.ramStart + m.size then
    .ok (m.content gpa % 2 ^ 64)
  else
    .error .BoundsViolation

/-- Outcome of running a handler that may hit an `unwrap`/`expect`:
either the handler panics (aborting the hypervisor thread) or it returns
a value. -/
inductive Exec (α : Type) where
  | panics : Exec α
  | ret : α → Exec α
deriving DecidableEq

/-- Error type of `virt_to_phys` (`PagetableError::InvalidAddress` in
`src/paging.rs`). -/
inductive PagetableError where
  | InvalidAddress : PagetableError
deriving DecidableEq

/-- Modelled from the spec (§4.3): `virt_to_phys(gva, mem, root)` is the
standard x86-64 four-level walk (9 bits per level, 12-bit page offset).
At each level the 8-byte entry at `table + 8 * index` is read through the
bounds-checked accessor (a failed read is an invalid address); a clear
PRESENT bit yields `InvalidAddress`; a set HUGE_PAGE bit at the PDPTE or
PDE level combines the large-page base with the low bits of `gva`.  The
function itself is not under `src/`; only its callers in
`src/hypercall.rs` are. -/
def virt_to_phys (gva : Nat) (m : Mem) (root : Nat) :
    Except PagetableError Nat :=
  match readU64 m (root + 8 * ((gva >>> 39) &&& 0x1FF)) with
  | .error _ => .error .InvalidAddress
  | .ok e4 =>
    if e4 &&& FLAG_PRESENT = 0 then .error .InvalidAddress else
    match readU64 m ((e4 &&& 0x000FFFFFFFFFF000)
        + 8 * ((gva >>> 30) &&& 0x1FF)) with
    | .error _ => .error .InvalidAddress
    | .ok e3 =>
      if e3 &&& FLAG_PRESENT = 0 then .error .InvalidAddress else
      if e3 &&& FLAG_HUGE_PAGE ≠ 0 then
        .ok ((e3 &&& 0x000FFFFFC0000000) + (gva &&& 0x3FFFFFFF))
      else
        match readU64 m ((e3 &&& 0x000FFFFFFFFFF000)
            + 8 * ((gva >>> 21) &&& 0x1FF)) with
        | .error _ => .error .InvalidAddress
        | .ok e2 =>
          if e2 &&& FLAG_PRESENT = 0 then .error .InvalidAddress else
          if e2 &&& FLAG_HUGE_PAGE ≠ 0 then
            .ok ((e2 &&& 0x000FFFFFFFE00000) + (gva &&& 0x1FFFFF))
          else
            match readU64 m ((e2 &&& 0x000FFFFFFFFFF000)
                + 8 * ((gva >>> 12) &&& 0x1FF)) with
            | .error _ => .error .InvalidAddress
            | .ok e1 =>
              if e1 &&& FLAG_PRESENT = 0 then .error .InvalidAddress
              else .ok ((e1 &&& 0x000FFFFFFFFFF000) + (gva &&& 0xFFF))

/-! ## Hypercall dispatch (`address_to_hypercall` in `src/hypercall.rs`,
lines 23-77) -/

/-- The reserved hypercall ports handled by the dispatch match in
`src/hypercall.rs` (the `HypercallAddress` variants it names). -/
inductive HypercallPort where
  | fileClose | fileLseek | fileOpen | fileRead | fileWrite | fileUnlink
  | exitHc | cmdsize | cmdval | uart | serialBufferWrite
deriving DecidableEq

/-- Size in bytes of the packed little-endian parameter record borrowed
for each port.  `ReadParams` and `WriteParams` are taken from
`src/uhyve-interface/src/v2/parameters.rs`; the remaining shapes are
modelled from the spec (§4.6, §6).  `uart` takes no memory borrow. -/
def paramSize : HypercallPort → Nat
  | .fileClose => 8
  | .fileLseek => 16
  | .fileOpen => 20
  | .fileRead => 28
  | .fileWrite => 20
  | .fileUnlink => 12
  | .exitHc => 4
  | .cmdsize => 16
  | .cmdval => 16
  | .uart => 0
  | .serialBufferWrite => 16

/-- The typed hypercall produced by dispatch: either the serial byte
special case (the low 8 bits of `data`, no memory borrow) or a tagged
variant carrying the guest-physical address of its borrowed parameter
record. -/
inductive HypercallVal where
  | serialWriteByte (b : Nat) : HypercallVal
  | withParams (p : HypercallPort) (gpa : Nat) : HypercallVal
deriving DecidableEq

/-- Embedding of `address_to_hypercall(mem, addr, data)`.  The input
`port` is the result of `HypercallAddress::try_from(addr)` (`none` when
`addr` is not a reserved port, in which case the function returns `None`).
For every port except `Uart` the source takes the typed borrow with
`mem.get_ref_mut::<T>(data).unwrap()`: when the bounds check fails the
`unwrap` panics. -/
def address_to_hypercall (m : Mem) (port : Option HypercallPort)
    (data : Nat) : Exec (Option HypercallVal) :=
  match port with
  | none => .ret none
  | some p =>
    match p with
    | .uart => .ret (some (.serialWriteByte (data % 256)))
    | _ =>
      if get_ref_mut_ok m data (paramSize p) then
        .ret (some (.withParams p data))
      else
        .panics

/-! ## Hypercall handlers (`src/hypercall.rs`)

Host syscalls are modelled as oracle functions passed to the handlers;
each handler result records the value written to the parameter record's
return slot together with the host call it performed (if any), so that
"performs no host open/close/unlink" is expressible. -/

/-- Result of the `open` handler: the value written to `OpenParams.ret`,
the host `open` call performed (path, flags, mode), if any, and the file
map afterwards (the handler never mutates it). -/
structure OpenResult where
  ret : Int
  hostCall : Option (String × Nat × Nat)
  files : Option (List (String × String))
deriving DecidableEq

/-- Embedding of `open(mem, sysopen, file_map)` (`src/hypercall.rs`,
lines 88-131).  `name` is `sysopen.name`; `pathAt gpa` is the
NUL-terminated string read at `gpa` through the raw pointer
`mem.host_address(name).unwrap()` (that `unwrap` panics out of bounds);
`utf8Ok gpa` tells whether `CStr::from_ptr(..).to_str()` succeeds.  With
a file map present, the guest path is looked up verbatim in the map
(`get_paths().get_key_value`); a hit host-opens the mapped host path with
the unmodified `flags` and `mode`, a miss or invalid UTF-8 writes `-1`.
With no file map, the raw guest path is host-opened directly. -/
def hypercall_open (m : Mem) (name : Nat) (pathAt : Nat → String)
    (utf8Ok : Nat → Bool) (fileMap : Option (List (String × String)))
    (flags mode : Nat) (hostOpen : String → Nat → Nat → Int) :
    Exec OpenResult :=
  match host_address m name with
  | .error _ => .panics
  | .ok _ =>
    let requested := pathAt name
    match fileMap with
    | some files =>
      if utf8Ok name then
        match files.lookup requested with
        | some hostPath =>
          .ret ⟨hostOpen hostPath flags mode,
                some (hostPath, flags, mode), some files⟩
        | none => .ret ⟨-1, none, some files⟩
      else
        .ret ⟨-1, none, some files⟩
    | none =>
      .ret ⟨hostOpen requested flags mode,
            some (requested, flags, mode), none⟩

/-- Result of the `unlink` handler: the value written to
`UnlinkParams.ret` and the path passed to the host `unlink` call. -/
structure UnlinkResult where
  ret : Int
  hostCall : Option String
deriving DecidableEq

/-- Embedding of `unlink(mem, sysunlink)` (`src/hypercall.rs`, lines
79-85): `sysunlink.ret = libc::unlink(mem.host_address(sysunlink.name)
.unwrap())`.  The guest-supplied path is passed to the host unmodified;
no path map is consulted (the handler does not even receive one). -/
def hypercall_unlink (m : Mem) (name : Nat) (pathAt : Nat → String)
    (hostUnlink : String → Int) : Exec UnlinkResult :=
  match host_address m name with
  | .error _ => .panics
  | .ok _ => .ret ⟨hostUnlink (pathAt name), some (pathAt name)⟩

/-- Result of the `close` handler: the value written to
`CloseParams.ret` and the fd passed to the host `close` call. -/
structure CloseResult where
  ret : Int
  hostCall : Option Int
deriving DecidableEq

/-- Embedding of `close(sysclose)` (`src/hypercall.rs`, lines 133-138):
`sysclose.ret = libc::close(sysclose.fd)` — unconditionally, for every
fd, with no fd bookkeeping. -/
def hypercall_close (fd : Int) (hostClose : Int → Int) : CloseResult :=
  ⟨hostClose fd, some fd⟩

/-- Embedding of `read(mem, sysread)` (`src/hypercall.rs`, lines
140-155): the buffer address is translated with
`virt_to_phys(sysread.buf, mem, BOOT_PML4).unwrap()` and turned into a
host pointer with `mem.host_address(..).unwrap()` — both `unwrap`s panic
on failure — then `libc::read(fd, ptr, len)` runs and `ret` receives the
byte count, or `-1` if the host read failed.  The returned `Exec Int` is
the value written to `ReadParams.ret`.  `hostRead fd off len` is the host
`read` oracle. -/
def hypercall_read (m : Mem) (fd : Int) (buf len : Nat)
    (hostRead : Int → Nat → Nat → Int) : Exec Int :=
  match virt_to_phys buf m BOOT_PML4 with
  | .error _ => .panics
  | .ok gpa =>
    match host_address m gpa with
    | .error _ => .panics
    | .ok off =>
      let bytesRead := hostRead fd off len
      .ret (if 0 ≤ bytesRead then bytesRead else -1)

/-! ## Path map (`UhyveFileMap` in `src/isolation.rs`)

Paths are represented by their component lists (the view Rust's
`Path::components` gives of a normal relative path, with `[]` for the
empty path); the `HashMap<String, OsString>` becomes an association list
with overwrite-on-insert. -/

/-- A path as its list of components. -/
abbrev GuestPath := List String

/-- The `files : HashMap<String, OsString>` field of `UhyveFileMap`. -/
abbrev FileMap := List (GuestPath × GuestPath)

/-- `HashMap::get`: the value stored for key `k`, if any. -/
def mapGet (m : FileMap) (k : GuestPath) : Option GuestPath :=
  (m.find? (fun e => e.1 = k)).map (·.2)

/-- `HashMap::insert` with last-write-wins semantics. -/
def mapInsert (m : FileMap) (k v : GuestPath) : FileMap :=
  (k, v) :: m.filter (fun e => ¬ (e.1 = k))

/-- `Path::parent`: `None` for the empty path, otherwise the path with
its last component removed. -/
def parentPath (p : GuestPath) : Option GuestPath :=
  match p with
  | [] => none
  | _ :: _ => some p.dropLast

/-- `Path::ancestors`: the path itself, then each parent in turn, ending
with the empty path. -/
def ancestors (p : GuestPath) : List GuestPath :=
  (List.range (p.length + 1)).map (fun k => p.take (p.length - k))

/-- The ancestor scan inside `get_host_path`: the first mapped ancestor
`a` of the parent directory has its host path extended component-wise by
`strip_prefix(guest_path, a)`; every extension step inserts the pair
(guest path built so far, host path built so far) into the map — note the
guest side starts from the EMPTY path (`PathBuf::new()` in the source),
not from the ancestor `a`. -/
def walkAncestors (m : FileMap) (gp : GuestPath) :
    List GuestPath → Option GuestPath × FileMap
  | [] => (none, m)
  | a :: rest =>
    match mapGet m a with
    | some parentHost =>
      let suffix := gp.drop a.length
      let final := suffix.foldl
        (fun (st : GuestPath × GuestPath × FileMap) c =>
          let h := st.1 ++ [c]
          let g := st.2.1 ++ [c]
          (h, g, mapInsert st.2.2 g h))
        (parentHost, [], m)
      (some final.1, final.2.2)
    | none => walkAncestors m gp rest

/-- Embedding of `UhyveFileMap::get_host_path` (`src/isolation.rs`,
lines 96-137): exact lookup first; on a miss with a non-empty map, walk
the ancestors of the parent of `guest_path` and, at the first mapped
ancestor, build and return the extended host path while caching the
intermediate entries; otherwise `None`.  Returns the result together with
the mutated map. -/
def get_host_path (m : FileMap) (gp : GuestPath) :
    Option GuestPath × FileMap :=
  match mapGet m gp with
  | some h => (some h, m)
  | none =>
    if m.isEmpty then (none, m)
    else
      match parentPath gp with
      | none => (none, m)
      | some par => walkAncestors m gp (ancestors par)

end Uhyve

/-- C8: after pagetable/GDT initialization the three 8-byte GDT entries at
`GDT_OFFSET` are the null entry, `encode(0xA09B, 0, 0xFFFFF)` and
`encode(0xC093, 0, 0xFFFFF)`, where the code's encoding coincides with the
specification's encoding formula for all inputs, and the non-null entries
concretely equal `0xAF9B000000FFFF` and `0xCF93000000FFFF`. -/
theorem c8_gdt_entries :
    (∀ flags base limit,
      Uhyve.create_gdt_entry flags base limit
        = Uhyve.spec_gdt_encode flags base limit)
    ∧ Uhyve.gdt_after_init 0 = 0
    ∧ Uhyve.gdt_after_init 1 = Uhyve.spec_gdt_encode 0xA09B 0 0xFFFFF
    ∧ Uhyve.gdt_after_init 2 = Uhyve.spec_gdt_encode 0xC093 0 0xFFFFF
    ∧ Uhyve.gdt_after_init 1 = 0xAF9B000000FFFF
    ∧ Uhyve.gdt_after_init 2 = 0xCF93000000FFFF := by
  refine ⟨fun flags base limit => rfl, ?_, ?_, ?_, ?_, ?_⟩ <;> decide

/-- C9: after pagetable initialization on a zeroed region, PML4 entry 0
points to `RAM_START + PDPTE_OFFSET` and PML4 entry 511 points back to
`RAM_START + PML4_OFFSET`, both with PRESENT|WRITABLE; PDPTE entry 0
points to `RAM_START + PDE_OFFSET` with PRESENT|WRITABLE; and every PDE
entry `i` maps physical address `i * 2 MiB` with
PRESENT|WRITABLE|HUGE_PAGE (the 1 GiB identity map at guest-virtual 0). -/
theorem c9_pagetable_entries (g : Nat) (i : Fin 512) :
    (Uhyve.initialize_pagetables g).pml4 0
      = Uhyve.set_addr (g + Uhyve.PDPTE_OFFSET)
          (Uhyve.FLAG_PRESENT ||| Uhyve.FLAG_WRITABLE)
    ∧ (Uhyve.initialize_pagetables g).pml4 511
      = Uhyve.set_addr (g + Uhyve.PML4_OFFSET)
          (Uhyve.FLAG_PRESENT ||| Uhyve.FLAG_WRITABLE)
    ∧ (Uhyve.initialize_pagetables g).pdpte 0
      = Uhyve.set_addr (g + Uhyve.PDE_OFFSET)
          (Uhyve.FLAG_PRESENT ||| Uhyve.FLAG_WRITABLE)
    ∧ (Uhyve.initialize_pagetables g).pde i
      = Uhyve.set_addr (i.val * Uhyve.GUEST_PAGE_SIZE)
          (Uhyve.FLAG_PRESENT ||| Uhyve.FLAG_WRITABLE |||
            Uhyve.FLAG_HUGE_PAGE) := by
  refine ⟨?_, ?_, ?_, ?_⟩
  · simp [Uhyve.initialize_pagetables, Function.update_apply]
  · simp [Uhyve.initialize_pagetables, Function.update_apply]
  · simp [Uhyve.initialize_pagetables, Function.update_apply]
  · simp only [Uhyve.initialize_pagetables]
    rw [Uhyve.foldl_update_apply]
    simp [List.mem_finRange]

/-- C1: evaluation of the `open` handler at the claim's failing input.
With the path map `{guest.txt ↦ host.txt}` and guest path `foo.txt`
(a map miss), the handler writes `-1` into `ret`, performs no host open,
and leaves the path map unchanged — both when `O_CREAT` is set (the claim
requires allocating a temporary file with `O_EXCL` forced and inserting
the pair into the map) and when it is clear (the claim requires
`ret = -ENOENT = -2`). -/
theorem c1_open_miss_ignores_creat :
    Uhyve.hypercall_open ⟨0, 0x1000, fun _ => 0⟩ 0x100 (fun _ => "foo.txt")
        (fun _ => true) (some [("guest.txt", "host.txt")])
        (Uhyve.O_CREAT ||| Uhyve.O_WRONLY) 0o666 (fun _ _ _ => 3)
      = .ret ⟨-1, none, some [("guest.txt", "host.txt")]⟩
    ∧ Uhyve.hypercall_open ⟨0, 0x1000, fun _ => 0⟩ 0x100 (fun _ => "foo.txt")
        (fun _ => true) (some [("guest.txt", "host.txt")])
        Uhyve.O_RDONLY 0o666 (fun _ _ _ => 3)
      = .ret ⟨-1, none, some [("guest.txt", "host.txt")]⟩
    ∧ (-1 : Int) ≠ -2 := by
  refine ⟨?_, ?_, ?_⟩ <;> decide

/-- C2: evaluation of the `unlink` handler at the claim's failing input.
The handler never consults a path map (it does not even receive one): it
host-unlinks the guest-supplied path `/etc/passwd` directly and stores
the host return value, instead of writing `-ENOENT = -2` on a miss. -/
theorem c2_unlink_bypasses_path_map :
    Uhyve.hypercall_unlink ⟨0, 0x1000, fun _ => 0⟩ 0x100
        (fun _ => "/etc/passwd") (fun _ => 0)
      = .ret ⟨0, some "/etc/passwd"⟩
    ∧ (0 : Int) ≠ -2 := by
  refine ⟨?_, ?_⟩ <;> decide

/-- C3: evaluation of the dispatcher at the claim's failing input.  For a
`FileClose` hypercall whose parameter record at `data_gpa = 0x13000` ends
beyond the guest region `[0, 0x13000)`, `address_to_hypercall` panics
(the `unwrap` on the failed bounds-checked borrow) instead of logging and
skipping the call; an in-bounds record dispatches normally. -/
theorem c3_dispatch_panics_on_oob_record :
    Uhyve.address_to_hypercall ⟨0, 0x13000, fun _ => 0⟩
        (some .fileClose) 0x13000 = .panics
    ∧ Uhyve.address_to_hypercall ⟨0, 0x13000, fun _ => 0⟩
        (some .fileClose) 0x1000
      = .ret (some (.withParams .fileClose 0x1000)) := by
  refine ⟨?_, ?_⟩ <;> decide

/-- C4: evaluation of the `open` handler at the claim's failing input.
For a map hit with flags `0o4000` (`O_NONBLOCK`, outside the allowed
set), the host open receives the unmodified flags `0o4000`, although
`0o4000 & ALLOWED_OPEN_FLAGS = 0`: the handler never masks the flags. -/
theorem c4_open_flags_not_masked :
    Uhyve.hypercall_open ⟨0, 0x1000, fun _ => 0⟩ 0 (fun _ => "g")
        (fun _ => true) (some [("g", "h")]) 0o4000 0o666 (fun _ _ _ => 3)
      = .ret ⟨3, some ("h", 0o4000, 0o666), some [("g", "h")]⟩
    ∧ 0o4000 &&& Uhyve.ALLOWED_OPEN_FLAGS = 0
    ∧ (0o4000 : Nat) ≠ 0 := by
  refine ⟨?_, ?_, ?_⟩ <;> decide

/-- C5 counterexample: the claim is false at fd 0 — the `close` handler
performs a host close of fd 0 (the claim requires `ret = 0` with no host
close); likewise, for the never-opened fd 5 it stores the host's `-1`
rather than `-EBADF = -9`. -/
theorem c5_close_counterexample :
    ¬ ((Uhyve.hypercall_close 0 (fun _ => 0)).hostCall = none)
    ∧ (Uhyve.hypercall_close 5 (fun _ => -1)).ret = -1
    ∧ ((-1 : Int) ≠ -9) := by
  refine ⟨?_, ?_, ?_⟩ <;> decide

/-- C5 (amended): for every close hypercall, the handler unconditionally
host-closes `CloseParams.fd` — including fds 0, 1, 2 and fds that were
never opened — and stores the host's return value in `ret`; no open-fd
set is maintained. -/
theorem c5_close_unconditional_host_close (fd : Int) (hostClose : Int → Int) :
    Uhyve.hypercall_close fd hostClose
      = ⟨hostClose fd, some fd⟩ := rfl

/-- C6: evaluation of the `read` handler at the claim's failing input.
On a zeroed guest memory (every page-table entry non-present), the
translation of `ReadParams.buf` fails and the handler panics via the
`unwrap` on `virt_to_phys` instead of writing `-EFAULT` into `ret`; with
a valid four-level mapping for `buf = 0` the handler performs the host
read and stores the byte count. -/
theorem c6_read_panics_on_translation_failure :
    Uhyve.hypercall_read ⟨0, 0x100000, fun _ => 0⟩ 42 0x2000 64
        (fun _ _ _ => 17) = .panics
    ∧ Uhyve.hypercall_read
        ⟨0, 0x100000, fun a =>
          if a = 0x10000 then 0x11003 else
          if a = 0x11000 then 0x12003 else
          if a = 0x12000 then 0x13003 else
          if a = 0x13000 then 0x14003 else 0⟩
        42 0 64 (fun _ _ _ => 17) = .ret 17 := by
  refine ⟨?_, ?_⟩ <;> decide

/-- C7: when the VM has no path map (`file_map` is `None`, as opposed to
present-but-empty), the `open` handler passes the guest-supplied
NUL-terminated path unchanged to the host open syscall (any host path is
reachable); and when a path map is present, a path missing from it is
never host-opened (the allow-list is enforced only in that case). -/
theorem c7_open_without_map_is_passthrough (m : Uhyve.Mem) (name : Nat)
    (h1 : m.ramStart ≤ name) (h2 : name < m.ramStart + m.size)
    (pathAt : Nat → String) (utf8Ok : Nat → Bool) (flags mode : Nat)
    (hostOpen : String → Nat → Nat → Int) :
    Uhyve.hypercall_open m name pathAt utf8Ok none flags mode hostOpen
      = .ret ⟨hostOpen (pathAt name) flags mode,
              some (pathAt name, flags, mode), none⟩
    ∧ ∀ (files : List (String × String)),
        files.lookup (pathAt name) = none → utf8Ok name = true →
        Uhyve.hypercall_open m name pathAt utf8Ok (some files) flags mode
            hostOpen
          = .ret ⟨-1, none, some files⟩ := by
  constructor
  · simp [Uhyve.hypercall_open, Uhyve.host_address, h1, h2]
  · intro files hlk hutf
    simp [Uhyve.hypercall_open, Uhyve.host_address, h1, h2, hutf, hlk]

/-- C7 witness: the passthrough theorem applied at a concrete memory,
record address and path (`/etc/shadow`). -/
theorem c7_open_without_map_witness :
    (Uhyve.Mem.ramStart ⟨0, 0x1000, fun _ => 0⟩ ≤ 0x10)
    ∧ (0x10 < Uhyve.Mem.ramStart ⟨0, 0x1000, fun _ => 0⟩
        + Uhyve.Mem.size ⟨0, 0x1000, fun _ => 0⟩)
    ∧ Uhyve.hypercall_open ⟨0, 0x1000, fun _ => 0⟩ 0x10
        (fun _ => "/etc/shadow") (fun _ => true) none 2 0 (fun _ _ _ => 5)
      = .ret ⟨5, some ("/etc/shadow", 2, 0), none⟩ :=
  ⟨by decide, by decide,
    (c7_open_without_map_is_passthrough ⟨0, 0x1000, fun _ => 0⟩ 0x10
      (by decide) (by decide) (fun _ => "/etc/shadow") (fun _ => true) 2 0
      (fun _ _ _ => 5)).1⟩

/-- C10: evaluation of `get_host_path` at the claim's failing input.
With the map `{a ↦ host}` (so the parent directory `a` of the requested
path `a/a` is mapped), the first call returns `host/a` but caches the
RELATIVE pair `(a, host/a)` — overwriting the original mapping of `a` —
instead of the exact pair `(a/a, host/a)`; consequently `a/a` is still
missing from the map and a second identical call returns the different
result `host/a/a`. -/
theorem c10_child_traversal_not_idempotent :
    (Uhyve.get_host_path [(["a"], ["host"])] ["a", "a"]).1
      = some ["host", "a"]
    ∧ Uhyve.mapGet
        (Uhyve.get_host_path [(["a"], ["host"])] ["a", "a"]).2 ["a", "a"]
      = none
    ∧ (Uhyve.get_host_path
        (Uhyve.get_host_path [(["a"], ["host"])] ["a", "a"]).2
        ["a", "a"]).1
      = some ["host", "a", "a"]
    ∧ Uhyve.mapGet
        (Uhyve.get_host_path [(["a"], ["host"])] ["a", "a"]).2 ["a"]
      = some ["host", "a"]
    ∧ some (["host", "a"] : Uhyve.GuestPath)
      ≠ some ["host", "a", "a"] := by
  refine ⟨?_, ?_, ?_, ?_, ?_⟩ <;> decide
